import Mathlib

/-!
Verification of the VS Code agent-file validator (`src/index.ts` of
`timheuer/vscode-agent-validation`, whose simplified test copy is
`src/test/test.ts`).

The embedding translates the validator's pure core: the frontmatter
splitter, the parse pipeline, the per-field validators, the issue
collector (ignore-list filter, severity routing, message-template
substitution) and the per-file orchestrator.  External collaborators are
passed in as explicit function parameters: the YAML deserializer
(`load`), file-system existence checks (`fsExists`), and path
arithmetic (`resolvePath`, `dirname`).  JavaScript values decoded from
YAML are modelled by the inductive `Yaml` (numeric scalars are modelled
as integers; floating-point number formatting is not needed by any
validator branch except stringification, noted at `jsToString`), with
`Option Yaml` modelling `undefined` for absent fields.
-/

namespace AgentValidation

/-- Severity of a validation rule, `"error" | "warning"` in the source. -/
inductive Severity where
  | error
  | warning
deriving DecidableEq, Repr

/-- A JavaScript value produced by the YAML deserializer.  `null` is the
JS `null`; absence (`undefined`) is modelled as `Option.none` at use
sites.  Numbers are modelled as integers. -/
inductive Yaml where
  | str (s : String)
  | num (n : Int)
  | bool (b : Bool)
  | null
  | arr (items : List Yaml)
  | obj (fields : List (String × Yaml))

/-- JavaScript `typeof` on a decoded value.  Note that `typeof` of both
`null` and arrays is `"object"`. -/
def Yaml.typeof : Yaml → String
  | .str _ => "string"
  | .num _ => "number"
  | .bool _ => "boolean"
  | .null => "object"
  | .arr _ => "object"
  | .obj _ => "object"

/-- Is this value the JS `null` literal (the `x === null` test)? -/
def Yaml.isNull : Yaml → Bool
  | .null => true
  | _ => false

/-- Is this value a JS array (the `Array.isArray` test)? -/
def Yaml.isArray : Yaml → Bool
  | .arr _ => true
  | _ => false

/-- JavaScript truthiness of a decoded value (`!x` is `!truthy x`). -/
def Yaml.truthy : Yaml → Bool
  | .str s => s != ""
  | .num n => n != 0
  | .bool b => b
  | .null => false
  | .arr _ => true
  | .obj _ => true

/-- First-match association-list lookup; JS property access on the
decoded object.  Duplicate keys cannot be produced by the deserializer,
so first-match agrees with JS object lookup. -/
def lookupField : List (String × Yaml) → String → Option Yaml
  | [], _ => none
  | (k, v) :: rest, key => if k = key then some v else lookupField rest key

/-- JS property access `data[key]`: `none` models `undefined`.  On a
non-object (including arrays, whose elements are only reachable by
index) a named property is `undefined`. -/
def Yaml.getField : Yaml → String → Option Yaml
  | .obj fields, key => lookupField fields key
  | _, _ => none

/-- JS `Object.keys`: field names of an object, index strings of an
array, empty otherwise (only objects and arrays reach this call in the
validator). -/
def Yaml.keys : Yaml → List String
  | .obj fields => fields.map Prod.fst
  | .arr items => (List.range items.length).map toString
  | _ => []

/-- `typeof` lifted over possibly-absent values: `typeof undefined` is
`"undefined"`. -/
def typeofOpt : Option Yaml → String
  | none => "undefined"
  | some v => v.typeof

/-- Truthiness lifted over possibly-absent values: `undefined` is falsy. -/
def truthyOpt : Option Yaml → Bool
  | none => false
  | some v => v.truthy

/-- The JavaScript whitespace class used by `String.prototype.trim`:
tab, LF, VT, FF, CR, space, NBSP, BOM and the Unicode space separators. -/
def isJsWhitespace (c : Char) : Bool :=
  c == ' ' || c == '\t' || c == '\n' || c == '\r' ||
  c.toNat == 0x0b || c.toNat == 0x0c || c.toNat == 0xa0 ||
  c.toNat == 0x1680 || (0x2000 ≤ c.toNat && c.toNat ≤ 0x200a) ||
  c.toNat == 0x2028 || c.toNat == 0x2029 || c.toNat == 0x202f ||
  c.toNat == 0x205f || c.toNat == 0x3000 || c.toNat == 0xfeff

/-- JS `String.prototype.trim`: strip JS whitespace from both ends. -/
def jsTrim (s : String) : String :=
  ⟨((s.data.dropWhile isJsWhitespace).reverse.dropWhile isJsWhitespace).reverse⟩

/-- JS `String.prototype.length`: UTF-16 code units (astral codepoints
count as two). -/
def utf16Length (s : String) : Nat :=
  s.data.foldl (fun n c => n + (if c.toNat ≥ 0x10000 then 2 else 1)) 0

mutual

/-- JS `String(x)` coercion of a decoded value: strings unchanged,
numbers and booleans printed, `null` prints `"null"`, arrays print as
their comma-joined elements (with `null` elements printing empty), and
plain objects print `"[object Object]"`. -/
def jsToString : Yaml → String
  | .str s => s
  | .num n => toString n
  | .bool b => if b then "true" else "false"
  | .null => "null"
  | .obj _ => "[object Object]"
  | .arr items => String.intercalate "," (jsToStringItems items)

def jsToStringItems : List Yaml → List String
  | [] => []
  | .null :: rest => "" :: jsToStringItems rest
  | v :: rest => jsToString v :: jsToStringItems rest

end

/-- Replace the first occurrence of `pat` in a character list, as JS
`String.prototype.replace` with a string pattern does (an empty pattern
matches at the front). -/
def replaceFirstAux (pat rep : List Char) : List Char → List Char
  | [] => if pat.isPrefixOf ([] : List Char) then rep else []
  | c :: rest =>
    if pat.isPrefixOf (c :: rest) then rep ++ (c :: rest).drop pat.length
    else c :: replaceFirstAux pat rep rest

/-- JS `s.replace(pat, rep)` for literal string patterns (the `$`-escape
forms in the replacement, never used by the validator's details, are not
modelled). -/
def jsReplaceFirst (s pat rep : String) : String :=
  ⟨replaceFirstAux pat.data rep.data s.data⟩

/-- The known top-level frontmatter fields (`KNOWN_FIELDS` in
`src/types.ts`), in their source insertion order (which is the order the
`\x7bknownFields\x7d` template token renders them in). -/
def KNOWN_FIELDS : List String :=
  ["description", "name", "argument-hint", "tools", "agents", "model",
   "user-invokable", "disable-model-invocation", "infer", "target",
   "mcp-servers", "handoffs"]

/-- The fixed valid-target set (`VALID_TARGETS` in `src/types.ts`). -/
def VALID_TARGETS : List String := ["vscode", "github-copilot"]

/-- A rule table entry: static severity and message template. -/
structure Rule where
  severity : Severity
  message : String
deriving DecidableEq, Repr

/-- Modelled from the spec: the static Rule Table (`rules.json`,
imported by `src/index.ts` but not present under `src/`) maps every
RuleId to exactly one severity and one message template.  Severities
follow the spec's policy table (§4.3-§4.5, §7): structural and
type-mismatch rules are errors; the description-quality threshold,
deprecated usage, unknown keys, empty body, overlong body and dangling
references are warnings.  Template texts are modelled; each carries the
single detail token the spec names for that rule (length, field name,
index, path, or the known-fields listing).  The catch-all entry is
unreachable for the closed RuleId set. -/
def rules : String → Rule
  | "frontmatter-required" => ⟨.error, "\x7bdetail\x7d"⟩
  | "frontmatter-valid" => ⟨.error, "\x7bdetail\x7d"⟩
  | "file-extension" => ⟨.error, "File must have .agent.md extension"⟩
  | "description-format" =>
    ⟨.error, "Agent description is required and must be a non-empty string"⟩
  | "description-quality" =>
    ⟨.warning, "Description is short (\x7blength\x7d characters); aim for at least 50"⟩
  | "name-format" => ⟨.error, "name must be a string"⟩
  | "argument-hint-format" => ⟨.error, "argument-hint must be a string"⟩
  | "tools-format" => ⟨.error, "tools must be an array of strings: \x7bdetail\x7d"⟩
  | "agents-format" =>
    ⟨.error, "agents must be an array of strings or the wildcard: \x7bdetail\x7d"⟩
  | "model-format" =>
    ⟨.error, "model must be a string or an array of strings: \x7bdetail\x7d"⟩
  | "user-invokable-format" => ⟨.error, "user-invokable must be a boolean"⟩
  | "disable-model-invocation-format" =>
    ⟨.error, "disable-model-invocation must be a boolean"⟩
  | "infer-deprecated" =>
    ⟨.warning, "infer is deprecated; use user-invokable and disable-model-invocation instead"⟩
  | "target-valid" =>
    ⟨.error, "target must be one of vscode or github-copilot, got \x7bvalue\x7d"⟩
  | "mcp-servers-format" => ⟨.error, "mcp-servers must be an array"⟩
  | "handoffs-format" => ⟨.error, "handoffs must be an array of objects: \x7bdetail\x7d"⟩
  | "handoff-label-required" => ⟨.error, "Handoff at index \x7bindex\x7d requires a label"⟩
  | "handoff-agent-required" => ⟨.error, "Handoff at index \x7bindex\x7d requires an agent"⟩
  | "handoff-send-format" => ⟨.error, "Handoff at index \x7bindex\x7d: send must be a boolean"⟩
  | "handoff-model-format" => ⟨.error, "Handoff at index \x7bindex\x7d: model must be a string"⟩
  | "unknown-field" =>
    ⟨.warning, "Unknown field \x7bfield\x7d; known fields: \x7bknownFields\x7d"⟩
  | "body-empty" => ⟨.warning, "Agent body is empty"⟩
  | "body-too-long" => ⟨.warning, "Agent body has \x7blines\x7d lines, exceeding 1000"⟩
  | "reference-not-found" => ⟨.warning, "Referenced file not found: \x7bpath\x7d"⟩
  | _ => ⟨.error, ""⟩

/-- A rendered validation issue, as in `src/types.ts`. -/
structure ValidationIssue where
  ruleId : String
  message : String
  severity : Severity
  file : Option String
  line : Option Nat
deriving DecidableEq, Repr

/-- The in-order substitution chain of `createIssue`: each token is
replaced (first occurrence only) by the detail, then the known-fields
listing is substituted. -/
def renderMessage (template : String) (d : String) : String :=
  let m := jsReplaceFirst template "\x7bdetail\x7d" d
  let m := jsReplaceFirst m "\x7blength\x7d" d
  let m := jsReplaceFirst m "\x7blines\x7d" d
  let m := jsReplaceFirst m "\x7bvalue\x7d" d
  let m := jsReplaceFirst m "\x7bfield\x7d" d
  let m := jsReplaceFirst m "\x7bpath\x7d" d
  let m := jsReplaceFirst m "\x7bindex\x7d" d
  jsReplaceFirst m "\x7bknownFields\x7d" (String.intercalate ", " KNOWN_FIELDS)

/-- `createIssue` of `src/index.ts`: look the rule up, substitute the
detail when it is truthy (JS `if (detail)`: `null` and the empty string
skip substitution), and stamp severity. -/
def createIssue (ruleId : String) (detail : Option String)
    (file : Option String) (line : Option Nat) : ValidationIssue :=
  let rule := rules ruleId
  let message :=
    match detail with
    | some d => if d = "" then rule.message else renderMessage rule.message d
    | none => rule.message
  ⟨ruleId, message, rule.severity, file, line⟩

/-- The per-file issue accumulator: the append-only `errors` and
`warnings` lists, threaded through the validators. -/
abbrev Issues := List ValidationIssue × List ValidationIssue

/-- `addIssue` of `src/index.ts`: drop the issue silently when its rule
is in the ignore list, otherwise render it and route it by the rule's
static severity. -/
def addIssue (ruleId : String) (detail : Option String) (acc : Issues)
    (ignoreRules : List String) (file : Option String) (line : Option Nat) : Issues :=
  if ignoreRules.contains ruleId then acc
  else
    let issue := createIssue ruleId detail file line
    if issue.severity = .error then (acc.1 ++ [issue], acc.2)
    else (acc.1, acc.2 ++ [issue])

/-- Scan for the closing frontmatter delimiter: the lazy
`([\s\S]*?)\r?\n---` part of the splitter's regex.  Finds the earliest
end position for the captured group, preferring to let `\r?` consume a
carriage return, exactly as the regex engine does. -/
def scanClose (acc : List Char) : List Char → Option (List Char × List Char)
  | '\r' :: '\n' :: '-' :: '-' :: '-' :: rest => some (acc.reverse, rest)
  | '\n' :: '-' :: '-' :: '-' :: rest => some (acc.reverse, rest)
  | c :: rest => scanClose (c :: acc) rest
  | [] => none

/-- After the closing `---`, the regex's `\r?\n?` greedily consumes an
optional carriage return and an optional newline before the body. -/
def dropCloseNewline : List Char → List Char
  | '\r' :: '\n' :: rest => rest
  | '\r' :: rest => rest
  | '\n' :: rest => rest
  | rest => rest

/-- Continuation of `extractFrontmatter` once the opening delimiter line
has been consumed. -/
def extractAfterOpen (content : String) (rest : List Char) : Option String × String :=
  match scanClose [] rest with
  | some (fm, after) => (some ⟨fm⟩, ⟨dropCloseNewline after⟩)
  | none => (none, content)

/-- `extractFrontmatter` of `src/index.ts`: match
`/^---\r?\n([\s\S]*?)\r?\n---\r?\n?([\s\S]*)$/` against the file text,
returning the captured header (or `none`) and the body.  On no match the
whole text is the body. -/
def extractFrontmatter (content : String) : Option String × String :=
  match content.data with
  | '-' :: '-' :: '-' :: '\r' :: '\n' :: rest => extractAfterOpen content rest
  | '-' :: '-' :: '-' :: '\n' :: rest => extractAfterOpen content rest
  | _ => (none, content)

/-- Description-quality threshold (`DESCRIPTION_MIN_QUALITY`). -/
def DESCRIPTION_MIN_QUALITY : Nat := 50

/-- Body line-count ceiling (`BODY_MAX_LINES`). -/
def BODY_MAX_LINES : Nat := 1000

/-- File-size ceiling in KiB (`MAX_FILE_SIZE_KB`). -/
def MAX_FILE_SIZE_KB : Nat := 512

/-- A discovered, readable agent file: its on-disk byte size and its
decoded text content.  The unreadable-file branch of the source (a
`readFileSync` throw, surfacing as a parse failure with no RuleId) is
outside this model. -/
structure AgentFile where
  size : Nat
  content : String

/-- The outcome of the external YAML deserializer on a header text:
either a decoded value (`none` models the JS `undefined` that `load`
returns for an empty document), or a thrown syntax error with its
message. -/
inductive LoadResult where
  | ok (value : Option Yaml)
  | err (msg : String)

/-- A parse failure record: message plus optional RuleId (`null` for
failures with no associated rule, such as the oversize rejection). -/
structure ParseError where
  message : String
  ruleId : Option String
deriving DecidableEq, Repr

/-- Result of `parseAgentFile`. -/
inductive ParseResult where
  | success (data : Yaml) (body : String)
  | failure (e : ParseError)

/-- JS `Math.round(n / 1024)` for a natural byte count: division by 1024
is exact in floating point for any realistic size, and rounding is
half-up. -/
def roundKB (n : Nat) : Nat := (2 * n + 1024) / 2048

/-- `parseAgentFile` of `src/index.ts`: reject oversize files before
reading anything (a parse failure with no RuleId), split off the
frontmatter (absent frontmatter is `frontmatter-required`), hand the
header to the deserializer, and require the decoded value to be a
non-null object (`frontmatter-valid` otherwise, also for deserializer
throws). -/
def parseAgentFile (load : String → LoadResult) (file : AgentFile) : ParseResult :=
  if file.size > MAX_FILE_SIZE_KB * 1024 then
    .failure ⟨s!"File too large ({roundKB file.size}KB). Maximum: {MAX_FILE_SIZE_KB}KB", none⟩
  else
    match extractFrontmatter file.content with
    | (none, _) =>
      .failure ⟨"Agent file must contain YAML frontmatter (content between --- markers)",
        some "frontmatter-required"⟩
    | (some fm, body) =>
      match load fm with
      | .err m => .failure ⟨s!"Invalid YAML frontmatter: {m}", some "frontmatter-valid"⟩
      | .ok none => .failure ⟨"Frontmatter must be a valid YAML object", some "frontmatter-valid"⟩
      | .ok (some d) =>
        if d.typeof = "object" && !d.isNull then .success d body
        else .failure ⟨"Frontmatter must be a valid YAML object", some "frontmatter-valid"⟩

/-- `validateDescription`: absent or null, a non-string, or a
whitespace-only string is `description-format`; a surviving string
shorter than the quality threshold (in UTF-16 units, JS `.length`) is
`description-quality` carrying the observed length. -/
def validateDescription (description : Option Yaml) (acc : Issues)
    (ignoreRules : List String) (file : String) : Issues :=
  match description with
  | none => addIssue "description-format" none acc ignoreRules (some file) none
  | some .null => addIssue "description-format" none acc ignoreRules (some file) none
  | some (.str s) =>
    if (jsTrim s).length = 0 then
      addIssue "description-format" none acc ignoreRules (some file) none
    else if utf16Length s < DESCRIPTION_MIN_QUALITY then
      addIssue "description-quality" (some (toString (utf16Length s))) acc ignoreRules
        (some file) none
    else acc
  | some _ =>
    addIssue "description-format" (some "must be a string") acc ignoreRules (some file) none

/-- `validateName`: present non-null non-string is `name-format`. -/
def validateName (name : Option Yaml) (acc : Issues)
    (ignoreRules : List String) (file : String) : Issues :=
  match name with
  | none => acc
  | some .null => acc
  | some v =>
    if v.typeof ≠ "string" then
      addIssue "name-format" none acc ignoreRules (some file) none
    else acc

/-- `validateArgumentHint`: present non-null non-string is
`argument-hint-format`. -/
def validateArgumentHint (hint : Option Yaml) (acc : Issues)
    (ignoreRules : List String) (file : String) : Issues :=
  match hint with
  | none => acc
  | some .null => acc
  | some v =>
    if v.typeof ≠ "string" then
      addIssue "argument-hint-format" none acc ignoreRules (some file) none
    else acc

/-- The per-index element loop shared by the `tools`, `agents` and
`model` array cases: one issue of the given rule per non-string element,
naming its index. -/
def validateStringItems (ruleId : String) (items : List Yaml) (i : Nat)
    (acc : Issues) (ignoreRules : List String) (file : String) : Issues :=
  match items with
  | [] => acc
  | v :: rest =>
    let acc :=
      if v.typeof ≠ "string" then
        addIssue ruleId (some s!"Item at index {i} is not a string") acc ignoreRules
          (some file) none
      else acc
    validateStringItems ruleId rest (i + 1) acc ignoreRules file

/-- `validateTools`: present non-null non-array is `tools-format`;
otherwise each non-string element gets a `tools-format` issue. -/
def validateTools (tools : Option Yaml) (acc : Issues)
    (ignoreRules : List String) (file : String) : Issues :=
  match tools with
  | none => acc
  | some .null => acc
  | some (.arr items) => validateStringItems "tools-format" items 0 acc ignoreRules file
  | some _ =>
    addIssue "tools-format" (some "Expected an array") acc ignoreRules (some file) none

/-- `validateAgents`: the literal wildcard string passes as-is; a
present non-null non-array otherwise is `agents-format`; array elements
must each be strings. -/
def validateAgents (agents : Option Yaml) (acc : Issues)
    (ignoreRules : List String) (file : String) : Issues :=
  match agents with
  | none => acc
  | some .null => acc
  | some (.str s) =>
    if s = "*" then acc
    else addIssue "agents-format" (some "Expected an array or '*'") acc ignoreRules
      (some file) none
  | some (.arr items) => validateStringItems "agents-format" items 0 acc ignoreRules file
  | some _ =>
    addIssue "agents-format" (some "Expected an array or '*'") acc ignoreRules
      (some file) none

/-- `validateModel`: a string passes; an array is checked element-wise;
anything else present and non-null is `model-format`. -/
def validateModel (model : Option Yaml) (acc : Issues)
    (ignoreRules : List String) (file : String) : Issues :=
  match model with
  | none => acc
  | some .null => acc
  | some (.str _) => acc
  | some (.arr items) => validateStringItems "model-format" items 0 acc ignoreRules file
  | some _ =>
    addIssue "model-format" (some "Expected a string or array of strings") acc ignoreRules
      (some file) none

/-- `validateBooleanField` (used for `user-invokable` and
`disable-model-invocation`): present non-null non-boolean gets the given
rule's issue. -/
def validateBooleanField (value : Option Yaml) (ruleId : String) (acc : Issues)
    (ignoreRules : List String) (file : String) : Issues :=
  match value with
  | none => acc
  | some .null => acc
  | some v =>
    if v.typeof ≠ "boolean" then
      addIssue ruleId none acc ignoreRules (some file) none
    else acc

/-- `validateTarget`: a present non-null value must be a string in the
fixed valid-target set; otherwise `target-valid` carrying the JS
stringification of the value. -/
def validateTarget (target : Option Yaml) (acc : Issues)
    (ignoreRules : List String) (file : String) : Issues :=
  match target with
  | none => acc
  | some .null => acc
  | some v =>
    let isValid :=
      match v with
      | .str s => VALID_TARGETS.contains s
      | _ => false
    if isValid then acc
    else addIssue "target-valid" (some (jsToString v)) acc ignoreRules (some file) none

/-- `validateMcpServers`: present non-null non-array is
`mcp-servers-format`. -/
def validateMcpServers (mcpServers : Option Yaml) (acc : Issues)
    (ignoreRules : List String) (file : String) : Issues :=
  match mcpServers with
  | none => acc
  | some .null => acc
  | some v =>
    if !v.isArray then
      addIssue "mcp-servers-format" none acc ignoreRules (some file) none
    else acc

/-- `validateHandoff`: an element that is not a JS object (note that
`typeof` of an array is `"object"`, so arrays pass this guard) or is
null gets one indexed `handoffs-format` issue and no further checks;
otherwise `label` and `agent` must each be truthy strings, and `send`
and `model`, when not `undefined`, must be a boolean and a string
respectively. -/
def validateHandoff (handoff : Yaml) (index : Nat) (acc : Issues)
    (ignoreRules : List String) (file : String) : Issues :=
  if handoff.typeof ≠ "object" || handoff.isNull then
    addIssue "handoffs-format" (some s!"Item at index {index} is not an object") acc
      ignoreRules (some file) none
  else
    let label := handoff.getField "label"
    let acc :=
      if !truthyOpt label || typeofOpt label ≠ "string" then
        addIssue "handoff-label-required" (some (toString index)) acc ignoreRules
          (some file) none
      else acc
    let agent := handoff.getField "agent"
    let acc :=
      if !truthyOpt agent || typeofOpt agent ≠ "string" then
        addIssue "handoff-agent-required" (some (toString index)) acc ignoreRules
          (some file) none
      else acc
    let acc :=
      match handoff.getField "send" with
      | none => acc
      | some v =>
        if v.typeof ≠ "boolean" then
          addIssue "handoff-send-format" (some (toString index)) acc ignoreRules
            (some file) none
        else acc
    match handoff.getField "model" with
    | none => acc
    | some v =>
      if v.typeof ≠ "string" then
        addIssue "handoff-model-format" (some (toString index)) acc ignoreRules
          (some file) none
      else acc

/-- The indexed element loop of `validateHandoffs`. -/
def validateHandoffList (items : List Yaml) (i : Nat) (acc : Issues)
    (ignoreRules : List String) (file : String) : Issues :=
  match items with
  | [] => acc
  | h :: rest =>
    validateHandoffList rest (i + 1) (validateHandoff h i acc ignoreRules file)
      ignoreRules file

/-- `validateHandoffs`: present non-null non-array is `handoffs-format`;
otherwise each element is checked in order by `validateHandoff`. -/
def validateHandoffs (handoffs : Option Yaml) (acc : Issues)
    (ignoreRules : List String) (file : String) : Issues :=
  match handoffs with
  | none => acc
  | some .null => acc
  | some (.arr items) => validateHandoffList items 0 acc ignoreRules file
  | some _ => addIssue "handoffs-format" none acc ignoreRules (some file) none

/-- `validateInfer`: presence alone (`infer !== undefined`, any value
including `null` and `false`) triggers the deprecation issue; absence
yields nothing. -/
def validateInfer (infer : Option Yaml) (acc : Issues)
    (ignoreRules : List String) (file : String) : Issues :=
  match infer with
  | none => acc
  | some _ => addIssue "infer-deprecated" none acc ignoreRules (some file) none

/-- The key loop of `validateUnknownFields`. -/
def validateUnknownKeys (keys : List String) (acc : Issues)
    (ignoreRules : List String) (file : String) : Issues :=
  match keys with
  | [] => acc
  | k :: rest =>
    let acc :=
      if KNOWN_FIELDS.contains k then acc
      else addIssue "unknown-field" (some k) acc ignoreRules (some file) none
    validateUnknownKeys rest acc ignoreRules file

/-- `validateUnknownFields`: one `unknown-field` issue per decoded key
outside the known-field set. -/
def validateUnknownFields (data : Yaml) (acc : Issues)
    (ignoreRules : List String) (file : String) : Issues :=
  validateUnknownKeys data.keys acc ignoreRules file

/-- `validateBody`: a falsy or whitespace-only body is `body-empty` and
nothing else; otherwise the newline-split segment count above the
ceiling is `body-too-long` carrying the count. -/
def validateBody (body : String) (acc : Issues)
    (ignoreRules : List String) (file : String) : Issues :=
  if body = "" ∨ (jsTrim body).length = 0 then
    addIssue "body-empty" none acc ignoreRules (some file) none
  else
    let lines := (body.split (fun c => c = '\n')).length
    if lines > BODY_MAX_LINES then
      addIssue "body-too-long" (some (toString lines)) acc ignoreRules (some file) none
    else acc

/-- Split a character list at the first occurrence of `stop`: the
characters before it and those after it (with a proof that the tail got
strictly shorter, used for termination of the link scan).  This is how a
greedy `[^X]*` (or `[^X]+`, with the emptiness check done by the caller)
followed by a literal `X` consumes input. -/
def takeUntil (stop : Char) (l : List Char) :
    Option (List Char × { post : List Char // post.length < l.length }) :=
  match h : l.dropWhile (fun c => !(c == stop)) with
  | [] => none
  | _ :: post =>
    some (l.takeWhile (fun c => !(c == stop)),
      ⟨post, by
        have hle : (l.dropWhile (fun c => !(c == stop))).length ≤ l.length :=
          (List.dropWhile_sublist _).length_le
        rw [h] at hle
        simp only [List.length_cons] at hle
        omega⟩)

/-- Attempt the link regex `\[([^\]]*)\]\(([^)]+)\)` with the opening
bracket already consumed: the text part runs to the first `]`, which
must be followed immediately by `(`, and the target runs to the first
`)` and must be non-empty.  Returns the target and the input after the
whole match. -/
def matchLink (rest : List Char) :
    Option (String × { after : List Char // after.length < rest.length }) :=
  match takeUntil ']' rest with
  | none => none
  | some (_, ⟨afterBracket, hb⟩) =>
    match hp : afterBracket with
    | '(' :: afterParen =>
      (match takeUntil ')' afterParen with
       | none => none
       | some (target, ⟨afterAll, ha⟩) =>
         if target.isEmpty then none
         else some (⟨target⟩, ⟨afterAll, by
           subst hp
           simp only [List.length_cons] at hb
           omega⟩))
    | _ => none

/-- The global-regex `exec` loop over the body: scan left to right; at
each `[` attempt a full link match, and on success continue after the
match (the matched region is never rescanned), otherwise advance one
character. -/
def extractLinks : List Char → List String
  | [] => []
  | '[' :: rest =>
    (match matchLink rest with
     | some (target, ⟨after, _⟩) => target :: extractLinks after
     | none => extractLinks rest)
  | _ :: rest => extractLinks rest
termination_by l => l.length
decreasing_by
  · rename_i h
    have := (Subtype.mk after (by assumption) : { a : List Char // a.length < rest.length }).2
    simp only [List.length_cons]
    omega
  · simp only [List.length_cons]; omega
  · simp only [List.length_cons]; omega

/-- `validateFileReferences`' per-link loop: absolute URLs and anchors
are skipped; every other target is resolved against the agent's
directory and reported when the resolved path does not exist. -/
def validateLinkList (fsExists : String → Bool) (resolvePath : String → String → String)
    (links : List String) (agentDir : String) (acc : Issues)
    (ignoreRules : List String) (file : String) : Issues :=
  match links with
  | [] => acc
  | linkPath :: rest =>
    let acc :=
      if linkPath.startsWith "http://" || linkPath.startsWith "https://" ||
          linkPath.startsWith "#" then acc
      else if fsExists (resolvePath agentDir linkPath) then acc
      else addIssue "reference-not-found" (some linkPath) acc ignoreRules (some file) none
    validateLinkList fsExists resolvePath rest agentDir acc ignoreRules file

/-- `validateFileReferences` of `src/index.ts`, with the file system and
path resolution passed in as collaborators. -/
def validateFileReferences (fsExists : String → Bool)
    (resolvePath : String → String → String) (body : String) (agentDir : String)
    (acc : Issues) (ignoreRules : List String) (file : String) : Issues :=
  validateLinkList fsExists resolvePath (extractLinks body.data) agentDir acc
    ignoreRules file

/-- The caller-supplied validation configuration (`ValidateOptions`). -/
structure ValidateOptions where
  ignoreRules : List String
  validateReferences : Bool
deriving DecidableEq, Repr

/-- The per-file result record (`FileValidationResult`). -/
structure FileValidationResult where
  file : String
  valid : Bool
  errors : List ValidationIssue
  warnings : List ValidationIssue
deriving DecidableEq, Repr

/-- `validateAgentFile` of `src/index.ts`, the per-file orchestrator: on
parse failure, one error built directly by `createIssue` (bypassing the
ignore-list filter of `addIssue`), with the failure's RuleId or the
`frontmatter-required` default when it carries none; on parse success,
every field validator in source order, the unknown-field check, the body
validator, and (when enabled) the reference check; validity is derived
as emptiness of the error list. -/
def validateAgentFile (load : String → LoadResult) (fsExists : String → Bool)
    (resolvePath : String → String → String) (dirname : String → String)
    (filePath : String) (file : AgentFile) (options : ValidateOptions) :
    FileValidationResult :=
  let ignoreRules := options.ignoreRules
  match parseAgentFile load file with
  | .failure e =>
    let issue := createIssue (e.ruleId.getD "frontmatter-required") (some e.message)
      (some filePath) none
    ⟨filePath, false, [issue], []⟩
  | .success data body =>
    let acc : Issues := ([], [])
    let acc := validateDescription (data.getField "description") acc ignoreRules filePath
    let acc := validateName (data.getField "name") acc ignoreRules filePath
    let acc := validateArgumentHint (data.getField "argument-hint") acc ignoreRules filePath
    let acc := validateTools (data.getField "tools") acc ignoreRules filePath
    let acc := validateAgents (data.getField "agents") acc ignoreRules filePath
    let acc := validateModel (data.getField "model") acc ignoreRules filePath
    let acc := validateBooleanField (data.getField "user-invokable")
      "user-invokable-format" acc ignoreRules filePath
    let acc := validateBooleanField (data.getField "disable-model-invocation")
      "disable-model-invocation-format" acc ignoreRules filePath
    let acc := validateTarget (data.getField "target") acc ignoreRules filePath
    let acc := validateMcpServers (data.getField "mcp-servers") acc ignoreRules filePath
    let acc := validateHandoffs (data.getField "handoffs") acc ignoreRules filePath
    let acc := validateInfer (data.getField "infer") acc ignoreRules filePath
    let acc := validateUnknownFields data acc ignoreRules filePath
    let acc := validateBody body acc ignoreRules filePath
    let acc :=
      if options.validateReferences then
        validateFileReferences fsExists resolvePath body (dirname filePath) acc
          ignoreRules filePath
      else acc
    ⟨filePath, acc.1.isEmpty, acc.1, acc.2⟩

/-- No issue in the accumulator carries an ignored RuleId. -/
def NoIgnored (ig : List String) (acc : Issues) : Prop :=
  ∀ i ∈ acc.1 ++ acc.2, i.ruleId ∉ ig

theorem createIssue_ruleId (rid : String) (d : Option String) (f : Option String)
    (l : Option Nat) : (createIssue rid d f l).ruleId = rid := rfl

theorem createIssue_severity (rid : String) (d : Option String) (f : Option String)
    (l : Option Nat) : (createIssue rid d f l).severity = (rules rid).severity := rfl

theorem contains_eq_false_of_not_mem {l : List String} {a : String} (h : a ∉ l) :
    l.contains a = false := by
  rw [Bool.eq_false_iff]
  intro hc
  exact h (List.mem_of_elem_eq_true hc)

theorem addIssue_not_ignored_error (rid : String) (d : Option String) (acc : Issues)
    (ig : List String) (f : Option String) (l : Option Nat)
    (hmem : rid ∉ ig) (hsev : (rules rid).severity = Severity.error) :
    addIssue rid d acc ig f l = (acc.1 ++ [createIssue rid d f l], acc.2) := by
  unfold addIssue
  rw [contains_eq_false_of_not_mem hmem]
  simp [createIssue_severity, hsev]

theorem addIssue_not_ignored_warning (rid : String) (d : Option String) (acc : Issues)
    (ig : List String) (f : Option String) (l : Option Nat)
    (hmem : rid ∉ ig) (hsev : (rules rid).severity = Severity.warning) :
    addIssue rid d acc ig f l = (acc.1, acc.2 ++ [createIssue rid d f l]) := by
  unfold addIssue
  rw [contains_eq_false_of_not_mem hmem]
  simp [createIssue_severity, hsev]

theorem addIssue_noIgnored {ig : List String} {acc : Issues} (rid : String)
    (d : Option String) (f : Option String) (l : Option Nat)
    (h : NoIgnored ig acc) : NoIgnored ig (addIssue rid d acc ig f l) := by
  unfold addIssue
  split
  · exact h
  · dsimp only
    split
    · rename_i hc _
      have hrid : rid ∉ ig := by
        intro hm
        exact hc (by simpa using List.elem_eq_true_of_mem hm)
      intro i hi
      simp only [List.mem_append, List.mem_singleton] at hi
      rcases hi with (hi | rfl) | hi
      · exact h i (by simp [hi])
      · simpa [createIssue_ruleId] using hrid
      · exact h i (by simp [hi])
    · rename_i hc _
      have hrid : rid ∉ ig := by
        intro hm
        exact hc (by simpa using List.elem_eq_true_of_mem hm)
      intro i hi
      simp only [List.mem_append, List.mem_singleton] at hi
      rcases hi with hi | (hi | rfl)
      · exact h i (by simp [hi])
      · exact h i (by simp [hi])
      · simpa [createIssue_ruleId] using hrid

theorem validateDescription_noIgnored (v : Option Yaml) (acc : Issues)
    (ig : List String) (file : String) (h : NoIgnored ig acc) :
    NoIgnored ig (validateDescription v acc ig file) := by
  unfold validateDescription
  repeat' (first | dsimp only | split)
  all_goals repeat' apply addIssue_noIgnored
  all_goals exact h

theorem validateName_noIgnored (v : Option Yaml) (acc : Issues)
    (ig : List String) (file : String) (h : NoIgnored ig acc) :
    NoIgnored ig (validateName v acc ig file) := by
  unfold validateName
  repeat' (first | dsimp only | split)
  all_goals repeat' apply addIssue_noIgnored
  all_goals exact h

theorem validateArgumentHint_noIgnored (v : Option Yaml) (acc : Issues)
    (ig : List String) (file : String) (h : NoIgnored ig acc) :
    NoIgnored ig (validateArgumentHint v acc ig file) := by
  unfold validateArgumentHint
  repeat' (first | dsimp only | split)
  all_goals repeat' apply addIssue_noIgnored
  all_goals exact h

theorem validateStringItems_noIgnored (rid : String) (items : List Yaml) (i : Nat)
    (acc : Issues) (ig : List String) (file : String) (h : NoIgnored ig acc) :
    NoIgnored ig (validateStringItems rid items i acc ig file) := by
  induction items generalizing i acc with
  | nil => exact h
  | cons v rest ih =>
    simp only [validateStringItems]
    apply ih
    split
    · exact addIssue_noIgnored _ _ _ _ h
    · exact h

theorem validateTools_noIgnored (v : Option Yaml) (acc : Issues)
    (ig : List String) (file : String) (h : NoIgnored ig acc) :
    NoIgnored ig (validateTools v acc ig file) := by
  unfold validateTools
  repeat' (first | dsimp only | split)
  all_goals first
    | exact validateStringItems_noIgnored _ _ _ _ _ _ h
    | exact addIssue_noIgnored _ _ _ _ h
    | exact h

theorem validateAgents_noIgnored (v : Option Yaml) (acc : Issues)
    (ig : List String) (file : String) (h : NoIgnored ig acc) :
    NoIgnored ig (validateAgents v acc ig file) := by
  unfold validateAgents
  repeat' (first | dsimp only | split)
  all_goals first
    | exact validateStringItems_noIgnored _ _ _ _ _ _ h
    | exact addIssue_noIgnored _ _ _ _ h
    | exact h

theorem validateModel_noIgnored (v : Option Yaml) (acc : Issues)
    (ig : List String) (file : String) (h : NoIgnored ig acc) :
    NoIgnored ig (validateModel v acc ig file) := by
  unfold validateModel
  repeat' (first | dsimp only | split)
  all_goals first
    | exact validateStringItems_noIgnored _ _ _ _ _ _ h
    | exact addIssue_noIgnored _ _ _ _ h
    | exact h

theorem validateBooleanField_noIgnored (v : Option Yaml) (rid : String) (acc : Issues)
    (ig : List String) (file : String) (h : NoIgnored ig acc) :
    NoIgnored ig (validateBooleanField v rid acc ig file) := by
  unfold validateBooleanField
  repeat' (first | dsimp only | split)
  all_goals repeat' apply addIssue_noIgnored
  all_goals exact h

theorem validateTarget_noIgnored (v : Option Yaml) (acc : Issues)
    (ig : List String) (file : String) (h : NoIgnored ig acc) :
    NoIgnored ig (validateTarget v acc ig file) := by
  unfold validateTarget
  repeat' (first | dsimp only | split)
  all_goals repeat' apply addIssue_noIgnored
  all_goals exact h

theorem validateMcpServers_noIgnored (v : Option Yaml) (acc : Issues)
    (ig : List String) (file : String) (h : NoIgnored ig acc) :
    NoIgnored ig (validateMcpServers v acc ig file) := by
  unfold validateMcpServers
  repeat' (first | dsimp only | split)
  all_goals repeat' apply addIssue_noIgnored
  all_goals exact h

theorem validateHandoff_noIgnored (hd : Yaml) (idx : Nat) (acc : Issues)
    (ig : List String) (file : String) (h : NoIgnored ig acc) :
    NoIgnored ig (validateHandoff hd idx acc ig file) := by
  unfold validateHandoff
  repeat' (first | dsimp only | split)
  all_goals repeat' apply addIssue_noIgnored
  all_goals exact h

theorem validateHandoffList_noIgnored (items : List Yaml) (i : Nat) (acc : Issues)
    (ig : List String) (file : String) (h : NoIgnored ig acc) :
    NoIgnored ig (validateHandoffList items i acc ig file) := by
  induction items generalizing i acc with
  | nil => exact h
  | cons hd rest ih =>
    simp only [validateHandoffList]
    exact ih _ _ (validateHandoff_noIgnored _ _ _ _ _ h)

theorem validateHandoffs_noIgnored (v : Option Yaml) (acc : Issues)
    (ig : List String) (file : String) (h : NoIgnored ig acc) :
    NoIgnored ig (validateHandoffs v acc ig file) := by
  unfold validateHandoffs
  repeat' (first | dsimp only | split)
  all_goals first
    | exact validateHandoffList_noIgnored _ _ _ _ _ h
    | exact addIssue_noIgnored _ _ _ _ h
    | exact h

theorem validateInfer_noIgnored (v : Option Yaml) (acc : Issues)
    (ig : List String) (file : String) (h : NoIgnored ig acc) :
    NoIgnored ig (validateInfer v acc ig file) := by
  unfold validateInfer
  repeat' (first | dsimp only | split)
  all_goals repeat' apply addIssue_noIgnored
  all_goals exact h

theorem validateUnknownKeys_noIgnored (keys : List String) (acc : Issues)
    (ig : List String) (file : String) (h : NoIgnored ig acc) :
    NoIgnored ig (validateUnknownKeys keys acc ig file) := by
  induction keys generalizing acc with
  | nil => exact h
  | cons k rest ih =>
    simp only [validateUnknownKeys]
    apply ih
    split
    · exact h
    · exact addIssue_noIgnored _ _ _ _ h

theorem validateUnknownFields_noIgnored (data : Yaml) (acc : Issues)
    (ig : List String) (file : String) (h : NoIgnored ig acc) :
    NoIgnored ig (validateUnknownFields data acc ig file) := by
  exact validateUnknownKeys_noIgnored _ _ _ _ h

theorem validateBody_noIgnored (body : String) (acc : Issues)
    (ig : List String) (file : String) (h : NoIgnored ig acc) :
    NoIgnored ig (validateBody body acc ig file) := by
  unfold validateBody
  repeat' (first | dsimp only | split)
  all_goals repeat' apply addIssue_noIgnored
  all_goals exact h

theorem validateLinkList_noIgnored (fsE : String → Bool) (res : String → String → String)
    (links : List String) (agentDir : String) (acc : Issues)
    (ig : List String) (file : String) (h : NoIgnored ig acc) :
    NoIgnored ig (validateLinkList fsE res links agentDir acc ig file) := by
  induction links generalizing acc with
  | nil => exact h
  | cons lp rest ih =>
    simp only [validateLinkList]
    apply ih
    repeat' (first | dsimp only | split)
    all_goals repeat' apply addIssue_noIgnored
    all_goals exact h

theorem validateFileReferences_noIgnored (fsE : String → Bool)
    (res : String → String → String) (body : String) (agentDir : String) (acc : Issues)
    (ig : List String) (file : String) (h : NoIgnored ig acc) :
    NoIgnored ig (validateFileReferences fsE res body agentDir acc ig file) := by
  exact validateLinkList_noIgnored _ _ _ _ _ _ _ h

theorem validateAgentFile_success_noIgnored (load : String → LoadResult)
    (fsE : String → Bool) (res : String → String → String) (dir : String → String)
    (filePath : String) (file : AgentFile) (options : ValidateOptions)
    (data : Yaml) (body : String)
    (hp : parseAgentFile load file = ParseResult.success data body) :
    NoIgnored options.ignoreRules
      ((validateAgentFile load fsE res dir filePath file options).errors,
       (validateAgentFile load fsE res dir filePath file options).warnings) := by
  unfold validateAgentFile
  rw [hp]
  dsimp only
  split
  · apply validateFileReferences_noIgnored
    apply validateBody_noIgnored
    apply validateUnknownFields_noIgnored
    apply validateInfer_noIgnored
    apply validateHandoffs_noIgnored
    apply validateMcpServers_noIgnored
    apply validateTarget_noIgnored
    apply validateBooleanField_noIgnored
    apply validateBooleanField_noIgnored
    apply validateModel_noIgnored
    apply validateAgents_noIgnored
    apply validateTools_noIgnored
    apply validateArgumentHint_noIgnored
    apply validateName_noIgnored
    apply validateDescription_noIgnored
    intro i hi
    simp at hi
  · apply validateBody_noIgnored
    apply validateUnknownFields_noIgnored
    apply validateInfer_noIgnored
    apply validateHandoffs_noIgnored
    apply validateMcpServers_noIgnored
    apply validateTarget_noIgnored
    apply validateBooleanField_noIgnored
    apply validateBooleanField_noIgnored
    apply validateModel_noIgnored
    apply validateAgents_noIgnored
    apply validateTools_noIgnored
    apply validateArgumentHint_noIgnored
    apply validateName_noIgnored
    apply validateDescription_noIgnored
    intro i hi
    simp at hi

/-- C1.  As stated the claim fails on the code: issues arising from
parse failures do not pass through `addIssue`'s ignore-list filter but
are pushed by `createIssue` directly.  Amended form, proved here: on
every run whose parse succeeds, no issue carrying a RuleId from the
caller-supplied ignore list appears in the result's error or warning
list — every field, body, unknown-field, deprecation and reference
issue is discarded at generation time. -/
theorem ignored_rule_never_reported_after_successful_parse
    (load : String → LoadResult) (fsE : String → Bool)
    (res : String → String → String) (dir : String → String)
    (filePath : String) (file : AgentFile) (options : ValidateOptions)
    (r : String) (hr : r ∈ options.ignoreRules) (data : Yaml) (body : String)
    (hp : parseAgentFile load file = ParseResult.success data body) :
    ((validateAgentFile load fsE res dir filePath file options).errors ++
      (validateAgentFile load fsE res dir filePath file options).warnings).all
      (fun i => i.ruleId != r) = true := by
  have key := validateAgentFile_success_noIgnored load fsE res dir filePath file
    options data body hp
  rw [List.all_eq_true]
  intro i hi
  have hne : i.ruleId ≠ r := fun he => (key i hi) (he ▸ hr)
  simpa using hne

/-- Witness for the amended C1: a file whose frontmatter decodes to an
object with the unknown key `x` is validated with `unknown-field`
ignored; no reported issue carries the ignored id (without the ignore
list the unknown-field warning would appear). -/
theorem ignored_rule_never_reported_witness :
    "unknown-field" ∈ (ValidateOptions.mk ["unknown-field"] false).ignoreRules ∧
    parseAgentFile (fun _ => LoadResult.ok (some (Yaml.obj [("x", Yaml.num 1)])))
        ⟨18, "---\nx: 1\n---\nhello"⟩ =
      ParseResult.success (Yaml.obj [("x", Yaml.num 1)]) "hello" ∧
    ((validateAgentFile (fun _ => LoadResult.ok (some (Yaml.obj [("x", Yaml.num 1)])))
        (fun _ => false) (fun _ l => l) (fun _ => ".") "a.agent.md"
        ⟨18, "---\nx: 1\n---\nhello"⟩ (ValidateOptions.mk ["unknown-field"] false)).errors ++
      (validateAgentFile (fun _ => LoadResult.ok (some (Yaml.obj [("x", Yaml.num 1)])))
        (fun _ => false) (fun _ l => l) (fun _ => ".") "a.agent.md"
        ⟨18, "---\nx: 1\n---\nhello"⟩ (ValidateOptions.mk ["unknown-field"] false)).warnings).all
      (fun i => i.ruleId != "unknown-field") = true :=
  ⟨by simp, rfl,
    ignored_rule_never_reported_after_successful_parse _ _ _ _ "a.agent.md" _ _
      "unknown-field" (by simp) _ _ rfl⟩

/-- C1 counterexample to the claim as stated: with `frontmatter-required`
in the ignore list, validating a file with no frontmatter still reports
an error whose RuleId is the ignored `frontmatter-required`. -/
theorem ignored_parse_failure_still_reported :
    "frontmatter-required" ∈ (ValidateOptions.mk ["frontmatter-required"] false).ignoreRules ∧
    ((validateAgentFile (fun _ => LoadResult.ok none) (fun _ => false) (fun _ l => l)
        (fun _ => ".") "a.agent.md" ⟨14, "no frontmatter"⟩
        (ValidateOptions.mk ["frontmatter-required"] false)).errors.map
      ValidationIssue.ruleId) = ["frontmatter-required"] :=
  ⟨by simp, rfl⟩

/-- C2.  A file over the 512 KiB ceiling is rejected before any parsing:
the parse result is the same failure whatever the content and whatever
the deserializer (neither is ever consulted), and that failure carries
no associated RuleId. -/
theorem oversize_file_rejected_before_parsing (load load' : String → LoadResult)
    (c c' : String) (n : Nat) (h : n > MAX_FILE_SIZE_KB * 1024) :
    parseAgentFile load ⟨n, c⟩ = parseAgentFile load' ⟨n, c'⟩ ∧
    parseAgentFile load ⟨n, c⟩ =
      ParseResult.failure
        ⟨s!"File too large ({roundKB n}KB). Maximum: {MAX_FILE_SIZE_KB}KB", none⟩ := by
  unfold parseAgentFile
  simp only [if_pos h]
  exact ⟨trivial, trivial⟩

/-- Witness for C2 at 524289 bytes (one over the ceiling), two unrelated
contents and two unrelated deserializers. -/
theorem oversize_file_rejected_witness :
    524289 > MAX_FILE_SIZE_KB * 1024 ∧
    (parseAgentFile (fun _ => LoadResult.ok none) ⟨524289, "---\na: 1\n---\n"⟩ =
        parseAgentFile (fun _ => LoadResult.err "boom") ⟨524289, "other"⟩ ∧
      parseAgentFile (fun _ => LoadResult.ok none) ⟨524289, "---\na: 1\n---\n"⟩ =
        ParseResult.failure
          ⟨s!"File too large ({roundKB 524289}KB). Maximum: {MAX_FILE_SIZE_KB}KB", none⟩) :=
  ⟨by decide,
    oversize_file_rejected_before_parsing (fun _ => LoadResult.ok none)
      (fun _ => LoadResult.err "boom") "---\na: 1\n---\n" "other" 524289 (by decide)⟩

/-- C3.  As stated the claim fails on the code: JS `typeof` of an array
is `"object"`, so an array element passes the object guard and receives
label/agent/send/model checks instead of a single `handoffs-format`
issue.  Amended form, proved here: for every element that is a scalar
(string, number, boolean) or null — but not an array — the handoff
element validator produces exactly the one indexed `handoffs-format`
"not an object" issue through the collector and performs no further
checks on the element. -/
theorem non_object_handoff_single_issue (v : Yaml)
    (hv : v.typeof ≠ "object" ∨ v.isNull = true) (i : Nat) (acc : Issues)
    (ig : List String) (file : String) :
    validateHandoff v i acc ig file =
      addIssue "handoffs-format" (some s!"Item at index {i} is not an object") acc ig
        (some file) none ∧
    ("handoffs-format" ∉ ig →
      validateHandoff v i acc ig file =
        (acc.1 ++ [createIssue "handoffs-format"
          (some s!"Item at index {i} is not an object") (some file) none], acc.2)) := by
  have heq : validateHandoff v i acc ig file =
      addIssue "handoffs-format" (some s!"Item at index {i} is not an object") acc ig
        (some file) none := by
    unfold validateHandoff
    rcases hv with hv | hv
    · rw [if_pos]
      simp [hv]
    · cases v <;> simp_all [Yaml.isNull, Yaml.typeof]
  refine ⟨heq, fun hig => ?_⟩
  rw [heq, addIssue_not_ignored_error _ _ _ _ _ _ hig rfl]

/-- Witness for the amended C3 at the scalar element `5` and index 2. -/
theorem non_object_handoff_single_issue_witness :
    ((Yaml.num 5).typeof ≠ "object" ∨ (Yaml.num 5).isNull = true) ∧
    (validateHandoff (Yaml.num 5) 2 ([], []) [] "f" =
      addIssue "handoffs-format" (some "Item at index 2 is not an object") ([], []) []
        (some "f") none ∧
    ("handoffs-format" ∉ ([] : List String) →
      validateHandoff (Yaml.num 5) 2 ([], []) [] "f" =
        ([createIssue "handoffs-format" (some "Item at index 2 is not an object")
          (some "f") none], []))) := by
  refine ⟨Or.inl (by decide), ?_⟩
  have h := non_object_handoff_single_issue (Yaml.num 5) (Or.inl (by decide)) 2
    ([], []) [] "f"
  exact ⟨h.1, fun hig => h.2 hig⟩

/-- C3 counterexample to the claim as stated: the array element `[]` at
index 0 yields the two required-field issues, not a single
`handoffs-format` issue. -/
theorem array_handoff_element_not_single_issue :
    (((validateHandoff (Yaml.arr []) 0 ([], []) [] "f").1 ++
        (validateHandoff (Yaml.arr []) 0 ([], []) [] "f").2).map
      ValidationIssue.ruleId) = ["handoff-label-required", "handoff-agent-required"] ∧
    "handoffs-format" ∉
      (((validateHandoff (Yaml.arr []) 0 ([], []) [] "f").1 ++
          (validateHandoff (Yaml.arr []) 0 ([], []) [] "f").2).map
        ValidationIssue.ruleId) := by
  constructor
  · rfl
  · decide

/-- C4.  A file within the size ceiling whose text contains no
frontmatter delimiter pair yields exactly one issue, whose RuleId is
`frontmatter-required`, and no field-level issues at all (the warning
list is empty and the single error is the structural one). -/
theorem missing_frontmatter_sole_issue (load : String → LoadResult)
    (fsE : String → Bool) (res : String → String → String) (dir : String → String)
    (filePath : String) (file : AgentFile) (opts : ValidateOptions)
    (hsize : ¬ file.size > MAX_FILE_SIZE_KB * 1024)
    (hfm : (extractFrontmatter file.content).1 = none) :
    ((validateAgentFile load fsE res dir filePath file opts).errors.map
      ValidationIssue.ruleId) = ["frontmatter-required"] ∧
    (validateAgentFile load fsE res dir filePath file opts).warnings = [] := by
  have hps : parseAgentFile load file =
      ParseResult.failure
        ⟨"Agent file must contain YAML frontmatter (content between --- markers)",
          some "frontmatter-required"⟩ := by
    unfold parseAgentFile
    rw [if_neg hsize]
    rcases hef : extractFrontmatter file.content with ⟨f, b⟩
    rw [hef] at hfm
    simp only at hfm
    subst hfm
    rfl
  unfold validateAgentFile
  rw [hps]
  exact ⟨rfl, rfl⟩

/-- Witness for C4 on the five-byte file `hello`. -/
theorem missing_frontmatter_sole_issue_witness :
    (¬ (AgentFile.mk 5 "hello").size > MAX_FILE_SIZE_KB * 1024) ∧
    (extractFrontmatter (AgentFile.mk 5 "hello").content).1 = none ∧
    (((validateAgentFile (fun _ => LoadResult.ok none) (fun _ => false) (fun _ l => l)
        (fun _ => ".") "h.agent.md" ⟨5, "hello"⟩ (ValidateOptions.mk [] false)).errors.map
      ValidationIssue.ruleId) = ["frontmatter-required"] ∧
    (validateAgentFile (fun _ => LoadResult.ok none) (fun _ => false) (fun _ l => l)
        (fun _ => ".") "h.agent.md" ⟨5, "hello"⟩ (ValidateOptions.mk [] false)).warnings = []) :=
  ⟨by decide, rfl,
    missing_frontmatter_sole_issue (fun _ => LoadResult.ok none) (fun _ => false)
      (fun _ l => l) (fun _ => ".") "h.agent.md" ⟨5, "hello"⟩ (ValidateOptions.mk [] false)
      (by decide) rfl⟩

/-- C5.  As stated the claim fails on the code: a whitespace-only string
shorter than 50 characters is "syntactically present" yet yields only
`description-format` (the emptiness check returns before the quality
check).  Amended form, proved here: absent, null, or whitespace-only
yields the `description-format` issue; a present string that is not
whitespace-only and has fewer than 50 (UTF-16) characters yields the
`description-quality` issue carrying exactly the observed length as its
substituted detail. -/
theorem description_validator_policy (s : String) (acc : Issues) (ig : List String)
    (file : String) :
    validateDescription none acc ig file =
      addIssue "description-format" none acc ig (some file) none ∧
    validateDescription (some Yaml.null) acc ig file =
      addIssue "description-format" none acc ig (some file) none ∧
    ((jsTrim s).length = 0 →
      validateDescription (some (Yaml.str s)) acc ig file =
        addIssue "description-format" none acc ig (some file) none) ∧
    ((jsTrim s).length ≠ 0 → utf16Length s < DESCRIPTION_MIN_QUALITY →
      validateDescription (some (Yaml.str s)) acc ig file =
        addIssue "description-quality" (some (toString (utf16Length s))) acc ig
          (some file) none) := by
  refine ⟨rfl, rfl, fun h0 => ?_, fun h0 hlen => ?_⟩
  · unfold validateDescription
    dsimp only
    rw [if_pos h0]
  · unfold validateDescription
    dsimp only
    rw [if_neg h0, if_pos hlen]

/-- Witness for the amended C5 at the two-character description `hi`:
not whitespace-only, length 2 < 50, so the quality issue carries the
detail `2`. -/
theorem description_validator_policy_witness :
    ((jsTrim "hi").length ≠ 0 ∧ utf16Length "hi" < DESCRIPTION_MIN_QUALITY) ∧
    validateDescription (some (Yaml.str "hi")) ([], []) [] "f" =
      addIssue "description-quality" (some (toString (utf16Length "hi"))) ([], []) []
        (some "f") none :=
  ⟨⟨by decide, by decide⟩,
    ((description_validator_policy "hi" ([], []) [] "f").2.2.2 (by decide) (by decide))⟩

/-- C5 counterexample to the claim as stated: the present
one-character whitespace string yields only `description-format` and no
`description-quality` issue, although its length is below 50. -/
theorem whitespace_description_no_quality_issue :
    utf16Length " " < DESCRIPTION_MIN_QUALITY ∧
    (((validateDescription (some (Yaml.str " ")) ([], []) [] "f").1 ++
        (validateDescription (some (Yaml.str " ")) ([], []) [] "f").2).map
      ValidationIssue.ruleId) = ["description-format"] ∧
    "description-quality" ∉
      (((validateDescription (some (Yaml.str " ")) ([], []) [] "f").1 ++
          (validateDescription (some (Yaml.str " ")) ([], []) [] "f").2).map
        ValidationIssue.ruleId) := by
  exact ⟨by decide, rfl, by decide⟩

/-- C6.  On `handoffs: [\x7b\x7d, \x7blabel: "x"\x7d]` the handoffs
validator yields, in order: `handoff-label-required` for index 0,
`handoff-agent-required` for index 0, and `handoff-agent-required` for
index 1 — and nothing else. -/
theorem handoffs_example_two_elements :
    validateHandoffs (some (Yaml.arr [Yaml.obj [], Yaml.obj [("label", Yaml.str "x")]]))
        ([], []) [] "f" =
      ([createIssue "handoff-label-required" (some "0") (some "f") none,
        createIssue "handoff-agent-required" (some "0") (some "f") none,
        createIssue "handoff-agent-required" (some "1") (some "f") none], []) := rfl

/-- C7.  Presence of the `infer` key — whatever its value, including
`false` — yields exactly one `infer-deprecated` warning; absence yields
nothing. -/
theorem infer_presence_triggers_deprecation (v : Yaml) (acc : Issues)
    (ig : List String) (file : String) (hig : "infer-deprecated" ∉ ig) :
    validateInfer (some v) acc ig file =
      (acc.1, acc.2 ++ [createIssue "infer-deprecated" none (some file) none]) ∧
    validateInfer none acc ig file = acc := by
  constructor
  · show addIssue "infer-deprecated" none acc ig (some file) none = _
    exact addIssue_not_ignored_warning _ _ _ _ _ _ hig rfl
  · rfl

/-- Witness for C7 at the value `false` (the value is never inspected,
only presence). -/
theorem infer_presence_triggers_deprecation_witness :
    "infer-deprecated" ∉ ([] : List String) ∧
    (validateInfer (some (Yaml.bool false)) ([], []) [] "f" =
      ([], [createIssue "infer-deprecated" none (some "f") none]) ∧
    validateInfer none ([], []) [] "f" = ([], [])) :=
  ⟨by simp, infer_presence_triggers_deprecation (Yaml.bool false) ([], []) [] "f" (by simp)⟩

theorem addIssue_ignored (rid : String) (d : Option String) (acc : Issues)
    (ig : List String) (f : Option String) (l : Option Nat) (h : rid ∈ ig) :
    addIssue rid d acc ig f l = acc := by
  unfold addIssue
  rw [if_pos (show ig.contains rid = true from by
    simpa using List.elem_eq_true_of_mem h)]

/-- C8.  For every produced `FileValidationResult`, the `valid` flag is
true exactly when the error list is empty — it is derived from the error
list alone, so the warning list can never affect it. -/
theorem valid_iff_no_errors (load : String → LoadResult) (fsE : String → Bool)
    (res : String → String → String) (dir : String → String) (filePath : String)
    (file : AgentFile) (opts : ValidateOptions) :
    ((validateAgentFile load fsE res dir filePath file opts).valid = true ↔
      (validateAgentFile load fsE res dir filePath file opts).errors = []) := by
  unfold validateAgentFile
  cases hp : parseAgentFile load file with
  | success data body =>
    dsimp only
    simp [List.isEmpty_iff]
  | failure e =>
    simp

/-- Witness for C8 on a concrete no-frontmatter file: `valid` is false
and the error list is non-empty, matching the equivalence. -/
theorem valid_iff_no_errors_witness :
    ((validateAgentFile (fun _ => LoadResult.ok none) (fun _ => false) (fun _ l => l)
        (fun _ => ".") "a.agent.md" ⟨14, "no frontmatter"⟩ (ValidateOptions.mk [] false)).valid
      = true ↔
    (validateAgentFile (fun _ => LoadResult.ok none) (fun _ => false) (fun _ l => l)
        (fun _ => ".") "a.agent.md" ⟨14, "no frontmatter"⟩
        (ValidateOptions.mk [] false)).errors = []) :=
  valid_iff_no_errors (fun _ => LoadResult.ok none) (fun _ => false) (fun _ l => l)
    (fun _ => ".") "a.agent.md" ⟨14, "no frontmatter"⟩ (ValidateOptions.mk [] false)

/-- C9.  Validation is deterministic in its inputs: two runs over the
same file, the same file-system collaborators and configurations that
agree on the ignore list and the reference-checking switch produce
identical error and warning lists. -/
theorem same_configuration_same_issue_lists (load : String → LoadResult)
    (fsE : String → Bool) (res : String → String → String) (dir : String → String)
    (filePath : String) (file : AgentFile) (o1 o2 : ValidateOptions)
    (h1 : o1.ignoreRules = o2.ignoreRules)
    (h2 : o1.validateReferences = o2.validateReferences) :
    (validateAgentFile load fsE res dir filePath file o1).errors =
      (validateAgentFile load fsE res dir filePath file o2).errors ∧
    (validateAgentFile load fsE res dir filePath file o1).warnings =
      (validateAgentFile load fsE res dir filePath file o2).warnings := by
  have ho : o1 = o2 := by
    cases o1
    cases o2
    simp_all
  rw [ho]
  exact ⟨rfl, rfl⟩

/-- Witness for C9 with two equally-configured runs over a concrete
file. -/
theorem same_configuration_same_issue_lists_witness :
    (validateAgentFile (fun _ => LoadResult.ok none) (fun _ => false) (fun _ l => l)
        (fun _ => ".") "a.agent.md" ⟨14, "no frontmatter"⟩
        (ValidateOptions.mk ["body-empty"] true)).errors =
      (validateAgentFile (fun _ => LoadResult.ok none) (fun _ => false) (fun _ l => l)
        (fun _ => ".") "a.agent.md" ⟨14, "no frontmatter"⟩
        (ValidateOptions.mk ["body-empty"] true)).errors ∧
    (validateAgentFile (fun _ => LoadResult.ok none) (fun _ => false) (fun _ l => l)
        (fun _ => ".") "a.agent.md" ⟨14, "no frontmatter"⟩
        (ValidateOptions.mk ["body-empty"] true)).warnings =
      (validateAgentFile (fun _ => LoadResult.ok none) (fun _ => false) (fun _ l => l)
        (fun _ => ".") "a.agent.md" ⟨14, "no frontmatter"⟩
        (ValidateOptions.mk ["body-empty"] true)).warnings :=
  same_configuration_same_issue_lists (fun _ => LoadResult.ok none) (fun _ => false)
    (fun _ l => l) (fun _ => ".") "a.agent.md" ⟨14, "no frontmatter"⟩
    (ValidateOptions.mk ["body-empty"] true) (ValidateOptions.mk ["body-empty"] true)
    rfl rfl

/-- C10.  Starting from an empty accumulator, the body validator emits
at most one of `body-empty` and `body-too-long`, never both: a
whitespace-only body (however many lines) yields no `body-too-long`, and
a body that is not whitespace-only never yields `body-empty`. -/
theorem body_validator_emits_at_most_one (body : String) (ig : List String)
    (file : String) :
    (((validateBody body ([], []) ig file).1 ++
        (validateBody body ([], []) ig file).2).map ValidationIssue.ruleId = [] ∨
      ((validateBody body ([], []) ig file).1 ++
        (validateBody body ([], []) ig file).2).map ValidationIssue.ruleId =
          ["body-empty"] ∨
      ((validateBody body ([], []) ig file).1 ++
        (validateBody body ([], []) ig file).2).map ValidationIssue.ruleId =
          ["body-too-long"]) ∧
    ((jsTrim body).length = 0 →
      "body-too-long" ∉
        ((validateBody body ([], []) ig file).1 ++
          (validateBody body ([], []) ig file).2).map ValidationIssue.ruleId) ∧
    ((jsTrim body).length ≠ 0 →
      "body-empty" ∉
        ((validateBody body ([], []) ig file).1 ++
          (validateBody body ([], []) ig file).2).map ValidationIssue.ruleId) := by
  unfold validateBody
  by_cases h0 : body = "" ∨ (jsTrim body).length = 0
  · rw [if_pos h0]
    have htrim : (jsTrim body).length = 0 := by
      rcases h0 with h0 | h0
      · subst h0
        rfl
      · exact h0
    by_cases hig : "body-empty" ∈ ig
    · rw [addIssue_ignored _ _ _ _ _ _ hig]
      exact ⟨Or.inl rfl, fun _ => by simp, fun hne => (hne htrim).elim⟩
    · rw [addIssue_not_ignored_warning _ _ _ _ _ _ hig rfl]
      refine ⟨Or.inr (Or.inl ?_), fun _ => ?_, fun hne => (hne htrim).elim⟩
      · simp [createIssue_ruleId]
      · simp [createIssue_ruleId]
  · rw [if_neg h0]
    push_neg at h0
    obtain ⟨hbody, htrim⟩ := h0
    dsimp only
    by_cases hl : (body.split fun c => c = '\n').length > BODY_MAX_LINES
    · rw [if_pos hl]
      by_cases hig : "body-too-long" ∈ ig
      · rw [addIssue_ignored _ _ _ _ _ _ hig]
        exact ⟨Or.inl rfl, fun h => (htrim h).elim, fun _ => by simp⟩
      · rw [addIssue_not_ignored_warning _ _ _ _ _ _ hig rfl]
        refine ⟨Or.inr (Or.inr ?_), fun h => (htrim h).elim, fun _ => ?_⟩ <;>
          simp [createIssue_ruleId]
    · rw [if_neg hl]
      exact ⟨Or.inl rfl, fun h => (htrim h).elim, fun _ => by simp⟩

set_option maxRecDepth 8000 in
/-- Witness for C10 on a 1002-line whitespace-only body: only
`body-empty` is emitted despite the line count exceeding the ceiling. -/
theorem body_validator_emits_at_most_one_witness :
    (jsTrim (String.mk (List.replicate 1002 '\n'))).length = 0 ∧
    "body-too-long" ∉
      ((validateBody (String.mk (List.replicate 1002 '\n')) ([], []) [] "f").1 ++
        (validateBody (String.mk (List.replicate 1002 '\n')) ([], []) [] "f").2).map
        ValidationIssue.ruleId :=
  ⟨by decide,
    (body_validator_emits_at_most_one (String.mk (List.replicate 1002 '\n')) [] "f").2.1
      (by decide)⟩

end AgentValidation
